import Mathlib

/-!
Shallow embedding of `src/python/paddle/tensor/random.py`: the user-facing
random-tensor wrapper functions `rand`, `randn`, `randint`, `randperm`.

Each Python function is translated to a Lean function over an explicit
program state (the caller-owned computation graph).  Python exceptions are
modelled by `Except Error`, where `Error` distinguishes the typed errors
(`TypeError`, `ValueError`) raised by the validation code from other runtime
failures.  The execution-mode flag `in_dygraph_mode()` is passed as an
explicit boolean `mode` (true = dynamic-graph / eager mode).  The `name`
keyword argument of the Python functions carries no semantics in this file
and is omitted.

Framework collaborators that live outside `src/` (`core.ops`, `check_type`,
`check_dtype`, `convert_np_dtype_to_dtype_`, `LayerHelper`,
`utils._convert_shape_to_list`, `utils._get_shape_tensor_inputs`,
`uniform_random`, `gaussian_random`) are modelled from the spec; each such
definition carries a doc comment saying so.
-/

namespace Paddle

/-- The framework enumeration of element data types (`core.VarDesc.VarType`
restricted to the numeric kinds this file mentions). -/
inductive VarType
  | bool
  | uint8
  | int8
  | int16
  | int32
  | int64
  | float16
  | float32
  | float64
  deriving DecidableEq, Repr

/-- A data-type descriptor as accepted by the Python functions: either
already a `core.VarDesc.VarType` enumeration value, or a numpy-dtype /
string descriptor (modelled by its canonical name). -/
inductive DtypeArg
  | vartype (t : VarType)
  | np (s : String)
  deriving DecidableEq, Repr

/-- An element of a shape list/tuple: a plain integer, or a 1-element
integer Tensor (a dynamic size handle, carrying its runtime value). -/
inductive ShapeElem
  | lit (n : Int)
  | var (id : Nat) (val : Int)
  deriving DecidableEq, Repr

/-- A shape descriptor as accepted by the Python functions: a list or tuple
of integers / 1-element Tensors, a single 1-D integer Tensor (with its
runtime values), or anything else (`other`, e.g. a bare int). -/
inductive ShapeArg
  | list (es : List ShapeElem)
  | tuple (es : List ShapeElem)
  | var (id : Nat) (vals : List Int)
  | other
  deriving DecidableEq, Repr

/-- Python exceptions: the typed validation errors named by the spec
(`TypeError`, `ValueError`) and a catch-all for any other runtime failure
(e.g. an `AttributeError` arising outside the validation code). -/
inductive Error
  | typeError (msg : String)
  | valueError (msg : String)
  | other (msg : String)
  deriving DecidableEq, Repr

/-- An attribute value passed to an operator invocation.  The floating
literals `0.0` / `1.0` passed as `mean` / `std` / `min` / `max` are modelled
as the integers 0 / 1. -/
inductive AttrVal
  | int (n : Int)
  | intList (l : List Int)
  | dtype (t : VarType)
  deriving DecidableEq, Repr

/-- A value of the `inputs` map of a deferred graph node: a single Tensor
or a list of Tensors, referenced by variable id. -/
inductive InputVal
  | var (id : Nat)
  | varList (ids : List Nat)
  deriving DecidableEq, Repr

/-- An immediate-execution operator invocation (`core.ops.<op>(...)`):
the operator name and its flat list of named parameters. -/
structure EagerCall where
  op : String
  args : List (String × AttrVal)
  deriving DecidableEq, Repr

/-- A deferred graph node as registered by `helper.append_op`. -/
structure OpNode where
  type : String
  inputs : List (String × InputVal)
  outputs : List (String × Nat)
  attrs : List (String × AttrVal)
  deriving DecidableEq, Repr

/-- The kind of an opaque result handle: the return value of an
immediate-execution operator call, or a graph variable of a given dtype. -/
inductive HandleKind
  | eager (call : EagerCall)
  | graphVar (id : Nat) (dtype : VarType)
  deriving DecidableEq, Repr

/-- An opaque result handle.  `stopGradient = none` means the flag is
whatever the runtime gave the handle at creation: the functions in this
file did not touch it.  `some b` means this file assigned `b` to it. -/
structure Handle where
  kind : HandleKind
  stopGradient : Option Bool
  deriving DecidableEq, Repr

/-- The caller-visible state: the caller-owned computation graph (the list
of registered operator nodes) and the next fresh variable id. -/
structure ProgState where
  ops : List OpNode
  nextId : Nat
  deriving DecidableEq, Repr

/-- Modelled from the spec: `convert_dtype` (in `fluid/data_feeder.py`, not
under `src/`) maps a framework enumeration value back to its canonical
string name, as used by the `check_dtype` membership test. -/
def convert_dtype : VarType → String
  | .bool => "bool"
  | .uint8 => "uint8"
  | .int8 => "int8"
  | .int16 => "int16"
  | .int32 => "int32"
  | .int64 => "int64"
  | .float16 => "float16"
  | .float32 => "float32"
  | .float64 => "float64"

/-- Modelled from the spec: `convert_np_dtype_to_dtype_` (in
`fluid/framework.py`, not under `src/`) coerces a numpy-dtype / string
descriptor to the framework enumeration value, failing on anything that
names no enumeration value. -/
def convert_np_dtype_to_dtype_ (s : String) : Except Error VarType :=
  if s = "bool" then .ok .bool
  else if s = "uint8" then .ok .uint8
  else if s = "int8" then .ok .int8
  else if s = "int16" then .ok .int16
  else if s = "int32" then .ok .int32
  else if s = "int64" then .ok .int64
  else if s = "float16" then .ok .float16
  else if s = "float32" then .ok .float32
  else if s = "float64" then .ok .float64
  else .error (.other ("Not supported numpy dtype " ++ s))

/-- The coercion step shared by all four functions:
`if not isinstance(dtype, core.VarDesc.VarType): dtype =
convert_np_dtype_to_dtype_(dtype)`. -/
def coerceDtype : DtypeArg → Except Error VarType
  | .vartype t => .ok t
  | .np s => convert_np_dtype_to_dtype_ s

/-- The default-resolution step `if dtype is None: dtype = <default>`. -/
def resolveDtype (dtype0 : Option DtypeArg) (dflt : String) : DtypeArg :=
  match dtype0 with
  | none => .np dflt
  | some d => d

/-- Modelled from the spec: `check_type(shape, "shape", (list, tuple,
Variable), op)` (in `fluid/data_feeder.py`, not under `src/`) raises a
`TypeError` when shape is not one of the accepted representations. -/
def check_type (shape : ShapeArg) (argName op : String) : Except Error Unit :=
  match shape with
  | .other =>
      .error (.typeError ("The type of " ++ argName ++ " in " ++ op ++
        " must be list, tuple or Variable"))
  | _ => .ok ()

/-- Modelled from the spec: `check_dtype(dtype, "dtype", allowed, op)` (in
`fluid/data_feeder.py`, not under `src/`) raises a `TypeError` when the
requested data type is outside the supported enumeration of the function. -/
def check_dtype (t : VarType) (argName : String) (allowed : List String)
    (op : String) : Except Error Unit :=
  if convert_dtype t ∈ allowed then .ok ()
  else
    .error (.typeError ("The data type of " ++ argName ++ " in " ++ op ++
      " must be one of the supported enumeration, but received " ++
      convert_dtype t))

/-- The value of a shape element as read in dynamic-graph mode
(`x.numpy()[0]` for a 1-element Tensor). -/
def ShapeElem.value : ShapeElem → Int
  | .lit n => n
  | .var _ v => v

/-- Modelled from the spec: `utils._convert_shape_to_list` (in
`fluid/layers/utils.py`, not under `src/`) normalizes a shape descriptor to
a plain integer list in dynamic-graph mode; on a descriptor that is not a
list, tuple or Tensor it fails with an untyped runtime error (no `numpy`
attribute), not with one of the typed validation errors. -/
def convert_shape_to_list (shape : ShapeArg) : Except Error (List Int) :=
  match shape with
  | .list es => .ok (es.map ShapeElem.value)
  | .tuple es => .ok (es.map ShapeElem.value)
  | .var _ vals => .ok vals
  | .other => .error (.other "object has no attribute numpy")

/-- Whether a shape element is a dynamic size handle (a Tensor). -/
def ShapeElem.isVar : ShapeElem → Bool
  | .lit _ => false
  | .var _ _ => true

/-- The attr-list entry for a list shape containing dynamic size handles:
a literal keeps its value, a Tensor element becomes the placeholder -1. -/
def ShapeElem.attrValue : ShapeElem → Int
  | .lit n => n
  | .var _ _ => -1

/-- The variable ids of the dynamic size handles of a shape list. -/
def shapeVarIds (es : List ShapeElem) : List Nat :=
  es.foldr (fun e acc => match e with | .lit _ => acc | .var id _ => id :: acc) []

/-- Modelled from the spec: `utils._get_shape_tensor_inputs` (in
`fluid/layers/utils.py`, not under `src/`) turns the shape descriptor into
the inputs map of the operator and/or a `shape` attribute appended to the given
base attrs: a single Tensor becomes the `ShapeTensor` input; a list/tuple
of plain integers becomes the `shape` attribute; a list/tuple containing
dynamic size handles becomes the `ShapeTensorList` input plus a `shape`
attribute with -1 placeholders. -/
def get_shape_tensor_inputs (shape : ShapeArg)
    (attrs : List (String × AttrVal)) :
    List (String × InputVal) × List (String × AttrVal) :=
  match shape with
  | .var id _ => ([("ShapeTensor", .var id)], attrs)
  | .list es =>
      if es.any ShapeElem.isVar then
        ([("ShapeTensorList", .varList (shapeVarIds es))],
          attrs ++ [("shape", .intList (es.map ShapeElem.attrValue))])
      else
        ([], attrs ++ [("shape", .intList (es.map ShapeElem.value))])
  | .tuple es =>
      if es.any ShapeElem.isVar then
        ([("ShapeTensorList", .varList (shapeVarIds es))],
          attrs ++ [("shape", .intList (es.map ShapeElem.attrValue))])
      else
        ([], attrs ++ [("shape", .intList (es.map ShapeElem.value))])
  | .other => ([], attrs)

/-- Modelled from the spec: `LayerHelper.create_variable_for_type_inference`
(in `fluid/layer_helper.py`, not under `src/`) allocates a fresh graph
variable of the given dtype; its `stop_gradient` flag keeps the creation
default of the runtime (`none`: untouched by this file). -/
def create_variable_for_type_inference (st : ProgState) : Nat × ProgState :=
  (st.nextId, { st with nextId := st.nextId + 1 })

/-- Modelled from the spec: `helper.append_op` (in `fluid/layer_helper.py`,
not under `src/`) registers a node in the caller-owned computation graph. -/
def append_op (st : ProgState) (node : OpNode) : ProgState :=
  { st with ops := st.ops ++ [node] }

/-- The `high is None` normalization of `randint`: `high = low; low = 0`. -/
def normBounds (low0 : Int) (high0 : Option Int) : Int × Int :=
  match high0 with
  | none => (0, low0)
  | some h => (low0, h)

/-- The `ValueError` message of `randint` when `low >= high`. -/
def randint_bounds_msg (low high : Int) : String :=
  "randint low must less then high, but received low = " ++ toString low ++
    ", high = " ++ toString high

/-- The `ValueError` message of `randperm` when `n < 1`. -/
def randperm_n_msg : String :=
  "The input n should be greater than 0 in randperm op."

/-- `randint(low=0, high=None, shape=[1], dtype=None, name=None)` from
`src/python/paddle/tensor/random.py` lines 116-145.  Defaults of the
Python signature: `low = 0`, `high = none`, `shape = .list [.lit 1]`,
`dtype0 = none`. -/
def randint (low0 : Int) (high0 : Option Int) (shape : ShapeArg)
    (dtype0 : Option DtypeArg) (mode : Bool) (st : ProgState) :
    Except Error (Handle × ProgState) :=
  let lh := normBounds low0 high0
  let low := lh.1
  let high := lh.2
  match coerceDtype (resolveDtype dtype0 "int64") with
  | .error e => .error e
  | .ok dtype =>
    if mode then
      match convert_shape_to_list shape with
      | .error e => .error e
      | .ok l =>
          let call : EagerCall :=
            { op := "randint",
              args := [("shape", .intList l), ("low", .int low),
                       ("high", .int high), ("seed", .int 0),
                       ("dtype", .dtype dtype)] }
          .ok ({ kind := .eager call, stopGradient := none }, st)
    else
      match check_type shape "shape" "randint" with
      | .error e => .error e
      | .ok _ =>
        match check_dtype dtype "dtype" ["int32", "int64"] "randint" with
        | .error e => .error e
        | .ok _ =>
          if low ≥ high then
            .error (.valueError (randint_bounds_msg low high))
          else
            let ia := get_shape_tensor_inputs shape
              [("low", .int low), ("high", .int high), ("seed", .int 0),
               ("dtype", .dtype dtype)]
            let c := create_variable_for_type_inference st
            let node : OpNode :=
              { type := "randint", inputs := ia.1,
                outputs := [("Out", c.1)], attrs := ia.2 }
            .ok ({ kind := .graphVar c.1 dtype, stopGradient := none },
                 append_op c.2 node)

/-- Modelled from the spec: `gaussian_random` (in `fluid/layers`, not under
`src/`) follows the common shape of each function — coerces the data-type
descriptor, branches on the execution-mode flag to either call the
immediate-execution operator binding or construct a deferred graph node via
the helper, supplying shape, bounds (mean/std), seed and data-type tag, and
returns a handle to the result. -/
def gaussian_random (shape : ShapeArg) (mean std seed : Int)
    (dtype0 : DtypeArg) (mode : Bool) (st : ProgState) :
    Except Error (Handle × ProgState) :=
  match coerceDtype dtype0 with
  | .error e => .error e
  | .ok dtype =>
    if mode then
      match convert_shape_to_list shape with
      | .error e => .error e
      | .ok l =>
          let call : EagerCall :=
            { op := "gaussian_random",
              args := [("shape", .intList l), ("mean", .int mean),
                       ("std", .int std), ("seed", .int seed),
                       ("dtype", .dtype dtype)] }
          .ok ({ kind := .eager call, stopGradient := none }, st)
    else
      let ia := get_shape_tensor_inputs shape
        [("mean", .int mean), ("std", .int std), ("seed", .int seed),
         ("dtype", .dtype dtype)]
      let c := create_variable_for_type_inference st
      let node : OpNode :=
        { type := "gaussian_random", inputs := ia.1,
          outputs := [("Out", c.1)], attrs := ia.2 }
      .ok ({ kind := .graphVar c.1 dtype, stopGradient := none },
           append_op c.2 node)

/-- Modelled from the spec: `uniform_random` (in `fluid/layers`, not under
`src/`) follows the common shape of each function — coerces the data-type
descriptor, branches on the execution-mode flag to either call the
immediate-execution operator binding or construct a deferred graph node via
the helper, supplying shape, bounds (min/max), seed and data-type tag, and
returns a handle to the result.  Its Python signature defaults `seed` to 0. -/
def uniform_random (shape : ShapeArg) (dtype0 : DtypeArg)
    (min max seed : Int) (mode : Bool) (st : ProgState) :
    Except Error (Handle × ProgState) :=
  match coerceDtype dtype0 with
  | .error e => .error e
  | .ok dtype =>
    if mode then
      match convert_shape_to_list shape with
      | .error e => .error e
      | .ok l =>
          let call : EagerCall :=
            { op := "uniform_random",
              args := [("shape", .intList l), ("min", .int min),
                       ("max", .int max), ("seed", .int seed),
                       ("dtype", .dtype dtype)] }
          .ok ({ kind := .eager call, stopGradient := none }, st)
    else
      let ia := get_shape_tensor_inputs shape
        [("min", .int min), ("max", .int max), ("seed", .int seed),
         ("dtype", .dtype dtype)]
      let c := create_variable_for_type_inference st
      let node : OpNode :=
        { type := "uniform_random", inputs := ia.1,
          outputs := [("Out", c.1)], attrs := ia.2 }
      .ok ({ kind := .graphVar c.1 dtype, stopGradient := none },
           append_op c.2 node)

/-- `randn(shape, dtype=None, name=None)` from
`src/python/paddle/tensor/random.py` lines 148-217: resolves the default
dtype to `"float32"`, calls `gaussian_random(shape, mean=0.0, std=1.0,
seed=0, dtype, name)` and sets `stop_gradient = True` on the result. -/
def randn (shape : ShapeArg) (dtype0 : Option DtypeArg) (mode : Bool)
    (st : ProgState) : Except Error (Handle × ProgState) :=
  let dtype := resolveDtype dtype0 "float32"
  match gaussian_random shape 0 1 0 dtype mode st with
  | .error e => .error e
  | .ok r => .ok ({ r.1 with stopGradient := some true }, r.2)

/-- The default dtype of the Python signature
`randperm(n, dtype="int64", name=None)`. -/
def randpermDefaultDtype : DtypeArg := .np "int64"

/-- `randperm(n, dtype="int64", name=None)` from
`src/python/paddle/tensor/random.py` lines 220-274. -/
def randperm (n : Int) (dtype0 : DtypeArg) (mode : Bool) (st : ProgState) :
    Except Error (Handle × ProgState) :=
  match coerceDtype dtype0 with
  | .error e => .error e
  | .ok dtype =>
    if mode then
      let call : EagerCall :=
        { op := "randperm",
          args := [("n", .int n), ("seed", .int 0),
                   ("dtype", .dtype dtype)] }
      .ok ({ kind := .eager call, stopGradient := none }, st)
    else
      if n < 1 then
        .error (.valueError randperm_n_msg)
      else
        match check_dtype dtype "dtype"
            ["int64", "int32", "float32", "float64"] "randperm" with
        | .error e => .error e
        | .ok _ =>
          let c := create_variable_for_type_inference st
          let node : OpNode :=
            { type := "randperm", inputs := [],
              outputs := [("Out", c.1)],
              attrs := [("n", .int n), ("dtype", .dtype dtype),
                        ("seed", .int 0)] }
          .ok ({ kind := .graphVar c.1 dtype, stopGradient := some true },
               append_op c.2 node)

/-- `rand(shape, dtype=None, name=None)` from
`src/python/paddle/tensor/random.py` lines 277-347: resolves the default
dtype to `"float32"`, calls `uniform_random(shape, dtype, min=0.0, max=1.0)`
(seed defaulting to 0) and sets `stop_gradient = True` on the result. -/
def rand (shape : ShapeArg) (dtype0 : Option DtypeArg) (mode : Bool)
    (st : ProgState) : Except Error (Handle × ProgState) :=
  let dtype := resolveDtype dtype0 "float32"
  match uniform_random shape dtype 0 1 0 mode st with
  | .error e => .error e
  | .ok r => .ok ({ r.1 with stopGradient := some true }, r.2)

/-- Whether a call returned a result handle (no exception). -/
def isOkResult (r : Except Error (Handle × ProgState)) : Bool :=
  match r with
  | .ok _ => true
  | .error _ => false

/-- Whether a call raised a `TypeError`. -/
def isTypeErrorResult (r : Except Error (Handle × ProgState)) : Bool :=
  match r with
  | .error (.typeError _) => true
  | _ => false

/-- Whether a call raised a `ValueError`. -/
def isValueErrorResult (r : Except Error (Handle × ProgState)) : Bool :=
  match r with
  | .error (.valueError _) => true
  | _ => false

/-- Whether a handle is the return value of an immediate-execution call. -/
def isEagerHandle (h : Handle) : Bool :=
  match h.kind with
  | .eager _ => true
  | .graphVar _ _ => false

/-- Look up a named parameter of an operator invocation. -/
def lookupAttr (k : String) : List (String × AttrVal) → Option AttrVal
  | [] => none
  | p :: ps => if p.1 = k then some p.2 else lookupAttr k ps

/-- The data-type tag a handle carries: the `dtype` parameter of the
immediate-execution call, or the dtype of the graph variable. -/
def Handle.dtypeTag (h : Handle) : Option VarType :=
  match h.kind with
  | .eager c =>
      match lookupAttr "dtype" c.args with
      | some (.dtype t) => some t
      | _ => none
  | .graphVar _ t => some t

/-- The `stop_gradient` flag of the handle of a successful call. -/
def resultStopGradient (r : Except Error (Handle × ProgState)) :
    Option (Option Bool) :=
  match r with
  | .ok p => some p.1.stopGradient
  | .error _ => none

/-- The frame condition on the caller-visible state: in dynamic-graph mode
the state is unchanged; in graph mode the only change is registering one
operator node and allocating its output variable. -/
def frameOK (st st' : ProgState) (mode : Bool) : Prop :=
  if mode then st' = st
  else ∃ node, st' = { ops := st.ops ++ [node], nextId := st.nextId + 1 }

/-- A successful call that dispatched to the immediate-execution operator
binding: it returns an eager handle carrying the coerced data-type tag and
leaves the caller-visible state unchanged. -/
def eagerDispatched (r : Except Error (Handle × ProgState)) (st : ProgState)
    (t : VarType) : Prop :=
  match r with
  | .ok p => isEagerHandle p.1 = true ∧ p.2 = st ∧ p.1.dtypeTag = some t
  | .error _ => False

/-- A successful call that constructed a deferred graph node: it returns a
graph-variable handle carrying the coerced data-type tag, and the only
state change is the registered node and its fresh output variable. -/
def graphDispatched (r : Except Error (Handle × ProgState)) (st : ProgState)
    (t : VarType) : Prop :=
  match r with
  | .ok p => isEagerHandle p.1 = false ∧ p.1.dtypeTag = some t ∧
      ∃ node, p.2 = { ops := st.ops ++ [node], nextId := st.nextId + 1 }
  | .error _ => False

/-- The four-step contract of the spec, for one call: the call succeeds
with a handle carrying the coerced data-type tag, and the execution-mode
flag decides whether it was an immediate-execution dispatch (state
untouched) or a deferred graph-node construction. -/
def fourStepResult (r : Except Error (Handle × ProgState)) (mode : Bool)
    (st : ProgState) (t : VarType) : Prop :=
  if mode then eagerDispatched r st t else graphDispatched r st t

theorem value_map_lit (l : List Int) :
    (l.map ShapeElem.lit).map ShapeElem.value = l := by
  induction l with
  | nil => rfl
  | cons a l ih => simp [ih, ShapeElem.value]

theorem any_isVar_map_lit (l : List Int) :
    (l.map ShapeElem.lit).any ShapeElem.isVar = false := by
  induction l with
  | nil => rfl
  | cons a l ih => simp [ih, ShapeElem.isVar]

theorem value_comp_lit (l : List Int) :
    l.map (ShapeElem.value ∘ ShapeElem.lit) = l := by
  induction l with
  | nil => rfl
  | cons a l ih => simp [ih, ShapeElem.value]

theorem any_isVar_comp_lit (l : List Int) :
    l.any (ShapeElem.isVar ∘ ShapeElem.lit) = false := by
  induction l with
  | nil => rfl
  | cons a l ih => simp [ih, ShapeElem.isVar]

theorem randint_dygraph_eq (low0 : Int) (high0 : Option Int) (shape : ShapeArg)
    (dtype0 : Option DtypeArg) (t : VarType) (l : List Int) (st : ProgState)
    (hdt : coerceDtype (resolveDtype dtype0 "int64") = .ok t)
    (hsh : convert_shape_to_list shape = .ok l) :
    randint low0 high0 shape dtype0 true st =
      .ok ({ kind := .eager ⟨"randint",
               [("shape", .intList l), ("low", .int (normBounds low0 high0).1),
                ("high", .int (normBounds low0 high0).2), ("seed", .int 0),
                ("dtype", .dtype t)]⟩,
             stopGradient := none }, st) := by
  simp [randint, hdt, hsh]

theorem randint_graph_eq (low0 : Int) (high0 : Option Int) (shape : ShapeArg)
    (dtype0 : Option DtypeArg) (t : VarType) (st : ProgState)
    (hshape : shape ≠ .other)
    (hdt : coerceDtype (resolveDtype dtype0 "int64") = .ok t)
    (hall : convert_dtype t ∈ ["int32", "int64"])
    (hlt : ¬ (normBounds low0 high0).1 ≥ (normBounds low0 high0).2) :
    randint low0 high0 shape dtype0 false st =
      .ok (⟨.graphVar st.nextId t, none⟩,
        ⟨st.ops ++ [⟨"randint",
            (get_shape_tensor_inputs shape
              [("low", .int (normBounds low0 high0).1),
               ("high", .int (normBounds low0 high0).2),
               ("seed", .int 0), ("dtype", .dtype t)]).1,
            [("Out", st.nextId)],
            (get_shape_tensor_inputs shape
              [("low", .int (normBounds low0 high0).1),
               ("high", .int (normBounds low0 high0).2),
               ("seed", .int 0), ("dtype", .dtype t)]).2⟩],
          st.nextId + 1⟩) := by
  cases shape with
  | other => exact absurd rfl hshape
  | list es =>
      simp [randint, hdt, check_type, check_dtype, hall, hlt,
        create_variable_for_type_inference, append_op]
  | tuple es =>
      simp [randint, hdt, check_type, check_dtype, hall, hlt,
        create_variable_for_type_inference, append_op]
  | var id vals =>
      simp [randint, hdt, check_type, check_dtype, hall, hlt,
        create_variable_for_type_inference, append_op]

theorem randperm_dygraph_eq (n : Int) (dtype0 : DtypeArg) (t : VarType)
    (st : ProgState) (hdt : coerceDtype dtype0 = .ok t) :
    randperm n dtype0 true st =
      .ok ({ kind := .eager ⟨"randperm",
               [("n", .int n), ("seed", .int 0), ("dtype", .dtype t)]⟩,
             stopGradient := none }, st) := by
  simp [randperm, hdt]

theorem randperm_graph_eq (n : Int) (dtype0 : DtypeArg) (t : VarType)
    (st : ProgState) (hdt : coerceDtype dtype0 = .ok t) (hn : ¬ n < 1)
    (hall : convert_dtype t ∈ ["int64", "int32", "float32", "float64"]) :
    randperm n dtype0 false st =
      .ok (⟨.graphVar st.nextId t, some true⟩,
        ⟨st.ops ++ [⟨"randperm", [],
            [("Out", st.nextId)],
            [("n", .int n), ("dtype", .dtype t), ("seed", .int 0)]⟩],
          st.nextId + 1⟩) := by
  simp [randperm, hdt, hn, check_dtype, hall,
    create_variable_for_type_inference, append_op]

theorem uniform_random_dygraph_eq (shape : ShapeArg) (d : DtypeArg)
    (mn mx sd : Int) (t : VarType) (l : List Int) (st : ProgState)
    (hdt : coerceDtype d = .ok t)
    (hsh : convert_shape_to_list shape = .ok l) :
    uniform_random shape d mn mx sd true st =
      .ok ({ kind := .eager ⟨"uniform_random",
               [("shape", .intList l), ("min", .int mn), ("max", .int mx),
                ("seed", .int sd), ("dtype", .dtype t)]⟩,
             stopGradient := none }, st) := by
  simp [uniform_random, hdt, hsh]

theorem uniform_random_graph_eq (shape : ShapeArg) (d : DtypeArg)
    (mn mx sd : Int) (t : VarType) (st : ProgState)
    (hdt : coerceDtype d = .ok t) :
    uniform_random shape d mn mx sd false st =
      .ok (⟨.graphVar st.nextId t, none⟩,
        ⟨st.ops ++ [⟨"uniform_random",
            (get_shape_tensor_inputs shape
              [("min", .int mn), ("max", .int mx), ("seed", .int sd),
               ("dtype", .dtype t)]).1,
            [("Out", st.nextId)],
            (get_shape_tensor_inputs shape
              [("min", .int mn), ("max", .int mx), ("seed", .int sd),
               ("dtype", .dtype t)]).2⟩],
          st.nextId + 1⟩) := by
  simp [uniform_random, hdt, create_variable_for_type_inference, append_op]

theorem gaussian_random_dygraph_eq (shape : ShapeArg) (d : DtypeArg)
    (mean std sd : Int) (t : VarType) (l : List Int) (st : ProgState)
    (hdt : coerceDtype d = .ok t)
    (hsh : convert_shape_to_list shape = .ok l) :
    gaussian_random shape mean std sd d true st =
      .ok ({ kind := .eager ⟨"gaussian_random",
               [("shape", .intList l), ("mean", .int mean),
                ("std", .int std), ("seed", .int sd),
                ("dtype", .dtype t)]⟩,
             stopGradient := none }, st) := by
  simp [gaussian_random, hdt, hsh]

theorem gaussian_random_graph_eq (shape : ShapeArg) (d : DtypeArg)
    (mean std sd : Int) (t : VarType) (st : ProgState)
    (hdt : coerceDtype d = .ok t) :
    gaussian_random shape mean std sd d false st =
      .ok (⟨.graphVar st.nextId t, none⟩,
        ⟨st.ops ++ [⟨"gaussian_random",
            (get_shape_tensor_inputs shape
              [("mean", .int mean), ("std", .int std), ("seed", .int sd),
               ("dtype", .dtype t)]).1,
            [("Out", st.nextId)],
            (get_shape_tensor_inputs shape
              [("mean", .int mean), ("std", .int std), ("seed", .int sd),
               ("dtype", .dtype t)]).2⟩],
          st.nextId + 1⟩) := by
  simp [gaussian_random, hdt, create_variable_for_type_inference, append_op]

theorem uniform_random_ok_inv (shape : ShapeArg) (d : DtypeArg)
    (mn mx sd : Int) (mode : Bool) (st : ProgState) (r : Handle × ProgState)
    (hr : uniform_random shape d mn mx sd mode st = .ok r) :
    r.1.stopGradient = none ∧ frameOK st r.2 mode ∧
    ∃ t, coerceDtype d = .ok t ∧ r.1.dtypeTag = some t := by
  cases hc : coerceDtype d with
  | error e =>
      unfold uniform_random at hr
      rw [hc] at hr
      exact Except.noConfusion hr
  | ok t =>
      unfold uniform_random at hr
      rw [hc] at hr
      cases mode with
      | true =>
          cases hs : convert_shape_to_list shape with
          | error e =>
              rw [hs] at hr
              exact Except.noConfusion hr
          | ok l =>
              rw [hs] at hr
              simp at hr
              refine ⟨?_, ?_, t, rfl, ?_⟩ <;>
                simp [← hr, frameOK, Handle.dtypeTag, lookupAttr]
      | false =>
          simp at hr
          refine ⟨?_, ?_, t, rfl, ?_⟩ <;>
            simp [← hr, frameOK, Handle.dtypeTag, append_op,
              create_variable_for_type_inference]

theorem gaussian_random_ok_inv (shape : ShapeArg) (d : DtypeArg)
    (mean std sd : Int) (mode : Bool) (st : ProgState) (r : Handle × ProgState)
    (hr : gaussian_random shape mean std sd d mode st = .ok r) :
    r.1.stopGradient = none ∧ frameOK st r.2 mode ∧
    ∃ t, coerceDtype d = .ok t ∧ r.1.dtypeTag = some t := by
  cases hc : coerceDtype d with
  | error e =>
      unfold gaussian_random at hr
      rw [hc] at hr
      exact Except.noConfusion hr
  | ok t =>
      unfold gaussian_random at hr
      rw [hc] at hr
      cases mode with
      | true =>
          cases hs : convert_shape_to_list shape with
          | error e =>
              rw [hs] at hr
              exact Except.noConfusion hr
          | ok l =>
              rw [hs] at hr
              simp at hr
              refine ⟨?_, ?_, t, rfl, ?_⟩ <;>
                simp [← hr, frameOK, Handle.dtypeTag, lookupAttr]
      | false =>
          simp at hr
          refine ⟨?_, ?_, t, rfl, ?_⟩ <;>
            simp [← hr, frameOK, Handle.dtypeTag, append_op,
              create_variable_for_type_inference]

theorem rand_ok_inv (shape : ShapeArg) (dtype0 : Option DtypeArg) (mode : Bool)
    (st : ProgState) (h : Handle) (st' : ProgState)
    (hr : rand shape dtype0 mode st = .ok (h, st')) :
    h.stopGradient = some true ∧ frameOK st st' mode ∧
    ∃ t, coerceDtype (resolveDtype dtype0 "float32") = .ok t ∧
      h.dtypeTag = some t := by
  simp only [rand] at hr
  cases hu : uniform_random shape (resolveDtype dtype0 "float32") 0 1 0 mode st with
  | error e =>
      rw [hu] at hr
      exact Except.noConfusion hr
  | ok r =>
      rw [hu] at hr
      simp at hr
      obtain ⟨hsg, hfr, t, hct, htag⟩ := uniform_random_ok_inv _ _ _ _ _ _ _ _ hu
      refine ⟨?_, ?_, t, hct, ?_⟩
      · rw [← hr.1]
      · rw [← hr.2]
        exact hfr
      · rw [← hr.1]
        exact htag

theorem randn_ok_inv (shape : ShapeArg) (dtype0 : Option DtypeArg) (mode : Bool)
    (st : ProgState) (h : Handle) (st' : ProgState)
    (hr : randn shape dtype0 mode st = .ok (h, st')) :
    h.stopGradient = some true ∧ frameOK st st' mode ∧
    ∃ t, coerceDtype (resolveDtype dtype0 "float32") = .ok t ∧
      h.dtypeTag = some t := by
  simp only [randn] at hr
  cases hu : gaussian_random shape 0 1 0 (resolveDtype dtype0 "float32") mode st with
  | error e =>
      rw [hu] at hr
      exact Except.noConfusion hr
  | ok r =>
      rw [hu] at hr
      simp at hr
      obtain ⟨hsg, hfr, t, hct, htag⟩ := gaussian_random_ok_inv _ _ _ _ _ _ _ _ hu
      refine ⟨?_, ?_, t, hct, ?_⟩
      · rw [← hr.1]
      · rw [← hr.2]
        exact hfr
      · rw [← hr.1]
        exact htag

theorem randint_ge_graph_valueerror (low0 : Int) (high0 : Option Int)
    (shape : ShapeArg) (dtype0 : Option DtypeArg) (t : VarType)
    (st : ProgState)
    (hshape : shape ≠ .other)
    (hdt : coerceDtype (resolveDtype dtype0 "int64") = .ok t)
    (hall : convert_dtype t ∈ ["int32", "int64"])
    (hge : (normBounds low0 high0).1 ≥ (normBounds low0 high0).2) :
    randint low0 high0 shape dtype0 false st =
      .error (.valueError (randint_bounds_msg (normBounds low0 high0).1
        (normBounds low0 high0).2)) := by
  cases shape with
  | other => exact absurd rfl hshape
  | list es => simp [randint, hdt, check_type, check_dtype, hall, hge]
  | tuple es => simp [randint, hdt, check_type, check_dtype, hall, hge]
  | var id vals => simp [randint, hdt, check_type, check_dtype, hall, hge]

theorem randperm_ok_inv (n : Int) (d : DtypeArg) (mode : Bool)
    (st : ProgState) (h : Handle) (st' : ProgState)
    (hr : randperm n d mode st = .ok (h, st')) :
    frameOK st st' mode ∧
    (mode = true → h.stopGradient = none) ∧
    (mode = false → h.stopGradient = some true) := by
  cases hc : coerceDtype d with
  | error e =>
      have hko : isOkResult (randperm n d mode st) = false := by
        simp [randperm, hc, isOkResult]
      rw [hr] at hko
      exact Bool.noConfusion hko
  | ok t =>
      cases mode with
      | true =>
          rw [randperm_dygraph_eq n d t st hc] at hr
          have h2 := Except.ok.inj hr
          rw [Prod.mk.injEq] at h2
          obtain ⟨hh, hs⟩ := h2
          subst hh
          subst hs
          exact ⟨by simp [frameOK], fun _ => rfl, fun hf => Bool.noConfusion hf⟩
      | false =>
          by_cases hn : n < 1
          · have hko : isOkResult (randperm n d false st) = false := by
              simp [randperm, hc, hn, isOkResult]
            rw [hr] at hko
            exact Bool.noConfusion hko
          · by_cases hm : convert_dtype t ∈ ["int64", "int32", "float32", "float64"]
            · rw [randperm_graph_eq n d t st hc hn hm] at hr
              have h2 := Except.ok.inj hr
              rw [Prod.mk.injEq] at h2
              obtain ⟨hh, hs⟩ := h2
              subst hh
              subst hs
              refine ⟨⟨_, rfl⟩, fun ht => Bool.noConfusion ht, fun _ => rfl⟩
            · have hko : isOkResult (randperm n d false st) = false := by
                simp [randperm, hc, hn, check_dtype, hm, isOkResult]
              rw [hr] at hko
              exact Bool.noConfusion hko

theorem randint_ok_inv (low0 : Int) (high0 : Option Int) (shape : ShapeArg)
    (dtype0 : Option DtypeArg) (mode : Bool) (st : ProgState)
    (h : Handle) (st' : ProgState)
    (hr : randint low0 high0 shape dtype0 mode st = .ok (h, st')) :
    frameOK st st' mode ∧ h.stopGradient = none := by
  cases hc : coerceDtype (resolveDtype dtype0 "int64") with
  | error e =>
      have hko : isOkResult (randint low0 high0 shape dtype0 mode st) = false := by
        simp [randint, hc, isOkResult]
      rw [hr] at hko
      exact Bool.noConfusion hko
  | ok t =>
      cases mode with
      | true =>
          cases hs : convert_shape_to_list shape with
          | error e =>
              have hko : isOkResult (randint low0 high0 shape dtype0 true st) = false := by
                simp [randint, hc, hs, isOkResult]
              rw [hr] at hko
              exact Bool.noConfusion hko
          | ok l =>
              rw [randint_dygraph_eq low0 high0 shape dtype0 t l st hc hs] at hr
              have h2 := Except.ok.inj hr
              rw [Prod.mk.injEq] at h2
              obtain ⟨hh, hs2⟩ := h2
              subst hh
              subst hs2
              exact ⟨by simp [frameOK], rfl⟩
      | false =>
          cases hct : check_type shape "shape" "randint" with
          | error e =>
              have hko : isOkResult (randint low0 high0 shape dtype0 false st) = false := by
                simp [randint, hc, hct, isOkResult]
              rw [hr] at hko
              exact Bool.noConfusion hko
          | ok u =>
              have hshape : shape ≠ .other := by
                intro hsh
                rw [hsh] at hct
                exact Except.noConfusion (hct.symm.trans rfl)
              by_cases hm : convert_dtype t ∈ ["int32", "int64"]
              · by_cases hge : (normBounds low0 high0).1 ≥ (normBounds low0 high0).2
                · have hko : isOkResult (randint low0 high0 shape dtype0 false st) = false := by
                    cases shape with
                    | other => exact absurd rfl hshape
                    | list es => simp [randint, hc, check_type, check_dtype, hm, hge, isOkResult]
                    | tuple es => simp [randint, hc, check_type, check_dtype, hm, hge, isOkResult]
                    | var id vals => simp [randint, hc, check_type, check_dtype, hm, hge, isOkResult]
                  rw [hr] at hko
                  exact Bool.noConfusion hko
                · rw [randint_graph_eq low0 high0 shape dtype0 t st hshape hc hm hge] at hr
                  have h2 := Except.ok.inj hr
                  rw [Prod.mk.injEq] at h2
                  obtain ⟨hh, hs2⟩ := h2
                  subst hh
                  subst hs2
                  exact ⟨⟨_, rfl⟩, rfl⟩
              · have hko : isOkResult (randint low0 high0 shape dtype0 false st) = false := by
                  cases shape with
                  | other => exact absurd rfl hshape
                  | list es => simp [randint, hc, check_type, check_dtype, hm, isOkResult]
                  | tuple es => simp [randint, hc, check_type, check_dtype, hm, isOkResult]
                  | var id vals => simp [randint, hc, check_type, check_dtype, hm, isOkResult]
                rw [hr] at hko
                exact Bool.noConfusion hko

/-- Claim C1 counterexample: the claim quantifies over every call, but in
dynamic-graph mode `randint` with normalized bounds `low = 5 ≥ 3 = high`
returns a result handle and raises no `ValueError`. -/
theorem randint_low_ge_high_dygraph_returns_handle :
    isOkResult (randint 5 (some 3) (.list [.lit 1]) none true ⟨[], 0⟩) = true ∧
    isValueErrorResult (randint 5 (some 3) (.list [.lit 1]) none true ⟨[], 0⟩)
      = false :=
  ⟨rfl, rfl⟩

/-- Claim C1 (amended): in graph mode (`in_dygraph_mode()` false), every
call to `randint` whose shape and dtype pass the preceding checks and whose
bounds after the `high = None` normalization satisfy `low ≥ high` raises a
`ValueError` and returns no result handle. -/
theorem randint_low_ge_high_graph_mode_raises (low0 : Int)
    (high0 : Option Int) (shape : ShapeArg) (dtype0 : Option DtypeArg)
    (t : VarType) (st : ProgState)
    (hshape : shape ≠ .other)
    (hdt : coerceDtype (resolveDtype dtype0 "int64") = .ok t)
    (hall : convert_dtype t ∈ ["int32", "int64"])
    (hge : (normBounds low0 high0).1 ≥ (normBounds low0 high0).2) :
    randint low0 high0 shape dtype0 false st =
      .error (.valueError (randint_bounds_msg (normBounds low0 high0).1
        (normBounds low0 high0).2)) :=
  randint_ge_graph_valueerror low0 high0 shape dtype0 t st hshape hdt hall hge

/-- Witness for claim C1: `randint(3, 3)` in graph mode raises the
`ValueError`. -/
theorem randint_low_ge_high_graph_mode_raises_witness :
    randint 3 (some 3) (.list [.lit 1]) none false ⟨[], 0⟩ =
      .error (.valueError (randint_bounds_msg 3 3)) :=
  randint_low_ge_high_graph_mode_raises 3 (some 3) (.list [.lit 1]) none
    .int64 ⟨[], 0⟩ (by decide) rfl (by decide) (by decide)

/-- Claim C2 counterexample: the claim quantifies over every call, but in
dynamic-graph mode `randperm` with `n = 0 < 1` returns a result handle and
raises no `ValueError`. -/
theorem randperm_n_lt_one_dygraph_returns_handle :
    isOkResult (randperm 0 (.np "int64") true ⟨[], 0⟩) = true ∧
    isValueErrorResult (randperm 0 (.np "int64") true ⟨[], 0⟩) = false :=
  ⟨rfl, rfl⟩

/-- Claim C2 (amended): in graph mode (`in_dygraph_mode()` false), every
call to `randperm` whose dtype descriptor coerces and with `n < 1` raises a
`ValueError` and returns no result handle. -/
theorem randperm_n_lt_one_graph_mode_raises (n : Int) (dtype0 : DtypeArg)
    (t : VarType) (st : ProgState)
    (hdt : coerceDtype dtype0 = .ok t) (hn : n < 1) :
    randperm n dtype0 false st = .error (.valueError randperm_n_msg) := by
  simp [randperm, hdt, hn]

/-- Witness for claim C2: `randperm(0)` in graph mode raises the
`ValueError`. -/
theorem randperm_n_lt_one_graph_mode_raises_witness :
    randperm 0 (.np "int64") false ⟨[], 0⟩ =
      .error (.valueError randperm_n_msg) :=
  randperm_n_lt_one_graph_mode_raises 0 (.np "int64") .int64 ⟨[], 0⟩ rfl
    (by decide)

/-- Claim C3 counterexample: a shape that is not a list, tuple or Variable
does NOT reach the operator in dynamic-graph mode: the call fails inside
the shape normalizer with an untyped runtime error (no `numpy` attribute)
before `core.ops.randint` is invoked, refuting the part of the claim that
says an invalid shape reaches the operator. -/
theorem randint_bad_shape_dygraph_never_reaches_operator :
    randint 0 (some 5) ShapeArg.other none true ⟨[], 0⟩ =
      .error (.other "object has no attribute numpy") :=
  rfl

/-- Claim C3 (amended): when the execution-mode flag is true, `randint` and
`randperm` dispatch to the immediate-execution operator binding before any
validation, so all four checks are skipped: any bounds (including `low ≥
high`), any coerced dtype (including values outside the supported
enumerations of the functions) and any `n` (including `n < 1`) reach the
operator, which returns its handle with no typed error raised; an invalid
(non-list/tuple/Variable) shape likewise never receives the typed shape
error, but it fails with an untyped runtime error in the shape normalizer
and does not reach the operator. -/
theorem dygraph_dispatch_skips_validation (low0 : Int) (high0 : Option Int)
    (shape : ShapeArg) (d : DtypeArg) (t : VarType) (l : List Int) (n : Int)
    (st : ProgState)
    (hdt : coerceDtype d = .ok t)
    (hsh : convert_shape_to_list shape = .ok l) :
    randint low0 high0 shape (some d) true st =
      .ok (⟨.eager ⟨"randint",
        [("shape", .intList l), ("low", .int (normBounds low0 high0).1),
         ("high", .int (normBounds low0 high0).2), ("seed", .int 0),
         ("dtype", .dtype t)]⟩, none⟩, st) ∧
    randperm n d true st =
      .ok (⟨.eager ⟨"randperm",
        [("n", .int n), ("seed", .int 0), ("dtype", .dtype t)]⟩, none⟩,
        st) ∧
    randint low0 high0 .other (some d) true st =
      .error (.other "object has no attribute numpy") := by
  refine ⟨?_, ?_, ?_⟩
  · exact randint_dygraph_eq low0 high0 shape (some d) t l st hdt hsh
  · exact randperm_dygraph_eq n d t st hdt
  · simp [randint, resolveDtype, hdt, convert_shape_to_list]

/-- Witness for claim C3: invalid bounds (`7 ≥ 2`), a dtype outside both
supported enumerations would be caught in graph mode, and `n = 0 < 1`; in
dynamic-graph mode both calls still return a handle, while an invalid
shape fails with the untyped normalizer error. -/
theorem dygraph_dispatch_skips_validation_witness :
    randint 7 (some 2) (.list [.lit 1]) (some (.np "float32")) true ⟨[], 0⟩ =
      .ok (⟨.eager ⟨"randint",
        [("shape", .intList [1]), ("low", .int 7), ("high", .int 2),
         ("seed", .int 0), ("dtype", .dtype .float32)]⟩, none⟩, ⟨[], 0⟩) ∧
    randperm 0 (.np "float32") true ⟨[], 0⟩ =
      .ok (⟨.eager ⟨"randperm",
        [("n", .int 0), ("seed", .int 0), ("dtype", .dtype .float32)]⟩,
        none⟩, ⟨[], 0⟩) ∧
    randint 7 (some 2) .other (some (.np "float32")) true ⟨[], 0⟩ =
      .error (.other "object has no attribute numpy") :=
  dygraph_dispatch_skips_validation 7 (some 2) (.list [.lit 1])
    (.np "float32") .float32 [1] 0 ⟨[], 0⟩ rfl rfl

/-- Claim C4: every call to `rand` with no dtype specified that returns a
handle creates it with the default floating-point type of the framework,
float32. -/
theorem rand_default_dtype_is_float32 (shape : ShapeArg) (mode : Bool)
    (st : ProgState) (h : Handle) (st' : ProgState)
    (hr : rand shape none mode st = .ok (h, st')) :
    h.dtypeTag = some .float32 := by
  obtain ⟨-, -, t, hct, htag⟩ := rand_ok_inv shape none mode st h st' hr
  have h32 : coerceDtype (resolveDtype none "float32") =
      .ok VarType.float32 := rfl
  rw [h32] at hct
  injection hct with hct
  rw [htag, ← hct]

/-- Witness for claim C4: `rand([2])` in graph mode yields a float32
handle. -/
theorem rand_default_dtype_is_float32_witness :
    Handle.dtypeTag ⟨.graphVar 0 .float32, some true⟩ = some .float32 :=
  rand_default_dtype_is_float32 (.list [.lit 2]) false ⟨[], 0⟩
    ⟨.graphVar 0 .float32, some true⟩
    ⟨[⟨"uniform_random", [], [("Out", 0)],
       [("min", .int 0), ("max", .int 1), ("seed", .int 0),
        ("dtype", .dtype .float32), ("shape", .intList [2])]⟩], 1⟩ rfl

/-- Claim C5 counterexample: the claim quantifies over every call, but in
dynamic-graph mode `randint` with dtype float32 (outside its supported
enumeration int32/int64) raises no `TypeError` and returns a handle. -/
theorem unsupported_dtype_dygraph_returns_handle :
    isTypeErrorResult (randint 0 (some 5) (.list [.lit 1])
      (some (.np "float32")) true ⟨[], 0⟩) = false ∧
    isOkResult (randint 0 (some 5) (.list [.lit 1])
      (some (.np "float32")) true ⟨[], 0⟩) = true :=
  ⟨rfl, rfl⟩

/-- Claim C5 (amended): in graph mode (`in_dygraph_mode()` false), a
requested data type that coerces to an enumeration value outside the
supported enumeration of the function — outside int32/int64 for `randint`
(with a shape passing its check), outside int32/int64/float32/float64 for
`randperm` (with `n ≥ 1`) — makes the function raise a `TypeError` instead
of returning a result handle. -/
theorem unsupported_dtype_graph_mode_raises_type_error (low0 : Int)
    (high0 : Option Int) (shape : ShapeArg) (d1 d2 : DtypeArg)
    (t1 t2 : VarType) (n : Int) (st : ProgState)
    (hshape : shape ≠ .other)
    (hd1 : coerceDtype d1 = .ok t1)
    (hout1 : convert_dtype t1 ∉ ["int32", "int64"])
    (hd2 : coerceDtype d2 = .ok t2)
    (hout2 : convert_dtype t2 ∉ ["int64", "int32", "float32", "float64"])
    (hn : ¬ n < 1) :
    isTypeErrorResult (randint low0 high0 shape (some d1) false st) = true ∧
    isTypeErrorResult (randperm n d2 false st) = true := by
  constructor
  · cases shape with
    | other => exact absurd rfl hshape
    | list es =>
        simp [randint, resolveDtype, hd1, check_type, check_dtype, hout1, isTypeErrorResult]
    | tuple es =>
        simp [randint, resolveDtype, hd1, check_type, check_dtype, hout1, isTypeErrorResult]
    | var id vals =>
        simp [randint, resolveDtype, hd1, check_type, check_dtype, hout1, isTypeErrorResult]
  · simp [randperm, hd2, hn, check_dtype, hout2, isTypeErrorResult]

/-- Witness for claim C5: float32 for `randint` and float16 for `randperm`
both raise `TypeError` in graph mode. -/
theorem unsupported_dtype_graph_mode_raises_type_error_witness :
    isTypeErrorResult (randint 0 (some 5) (.list [.lit 1])
      (some (.np "float32")) false ⟨[], 0⟩) = true ∧
    isTypeErrorResult (randperm 5 (.np "float16") false ⟨[], 0⟩) = true :=
  unsupported_dtype_graph_mode_raises_type_error 0 (some 5) (.list [.lit 1])
    (.np "float32") (.np "float16") .float32 .float16 5 ⟨[], 0⟩
    (by decide) rfl (by decide) rfl (by decide) (by decide)

/-- Claim C6 counterexample: the claim quantifies over every call, but in
dynamic-graph mode `randint` with a shape that is not a list, tuple or
Variable raises no `TypeError` (the failure, when any, is an untyped
runtime error in the shape normalizer). -/
theorem randint_bad_shape_dygraph_no_type_error :
    isTypeErrorResult (randint 0 (some 5) .other none true ⟨[], 0⟩)
      = false :=
  rfl

/-- Claim C6 (amended): in graph mode (`in_dygraph_mode()` false), every
call to `randint` whose dtype descriptor coerces and whose shape is not one
of the accepted representations (list, tuple, Variable) raises a
`TypeError`. -/
theorem randint_bad_shape_graph_mode_raises_type_error (low0 : Int)
    (high0 : Option Int) (dtype0 : Option DtypeArg) (t : VarType)
    (st : ProgState)
    (hdt : coerceDtype (resolveDtype dtype0 "int64") = .ok t) :
    randint low0 high0 .other dtype0 false st =
      .error (.typeError
        "The type of shape in randint must be list, tuple or Variable") := by
  simp [randint, hdt, check_type]

/-- Witness for claim C6: a non-list/tuple/Variable shape raises
`TypeError` in graph mode. -/
theorem randint_bad_shape_graph_mode_raises_type_error_witness :
    randint 0 (some 5) .other none false ⟨[], 0⟩ =
      .error (.typeError
        "The type of shape in randint must be list, tuple or Variable") :=
  randint_bad_shape_graph_mode_raises_type_error 0 (some 5) none .int64
    ⟨[], 0⟩ rfl

/-- Claim C7: on a valid call (accepted shape, defaulted dtype, `low <
high`, `n ≥ 1`) each of the four functions resolves its default arguments,
coerces the data-type descriptor to the framework enumeration value
(int64 for `randint`, float32 for `rand`/`randn`, int64 for `randperm`),
branches on the execution-mode flag to either call the immediate-execution
operator binding (state untouched) or construct a deferred graph node via
the helper (exactly one node registered), and returns a handle. -/
theorem four_functions_follow_four_steps (mode : Bool) (st : ProgState)
    (low high n : Int) (shape : ShapeArg) (l : List Int)
    (hshape : shape ≠ .other)
    (hsh : convert_shape_to_list shape = .ok l)
    (hlh : low < high) (hn : 1 ≤ n) :
    fourStepResult (randint low (some high) shape none mode st) mode st
      .int64 ∧
    fourStepResult (randn shape none mode st) mode st .float32 ∧
    fourStepResult (rand shape none mode st) mode st .float32 ∧
    fourStepResult (randperm n randpermDefaultDtype mode st) mode st
      .int64 := by
  cases mode with
  | true =>
      refine ⟨?_, ?_, ?_, ?_⟩
      · rw [randint_dygraph_eq low (some high) shape none .int64 l st rfl hsh]
        exact ⟨rfl, rfl, rfl⟩
      · simp only [randn, resolveDtype]
        rw [gaussian_random_dygraph_eq shape (.np "float32") 0 1 0 .float32
          l st rfl hsh]
        exact ⟨rfl, rfl, rfl⟩
      · simp only [rand, resolveDtype]
        rw [uniform_random_dygraph_eq shape (.np "float32") 0 1 0 .float32
          l st rfl hsh]
        exact ⟨rfl, rfl, rfl⟩
      · rw [randperm_dygraph_eq n randpermDefaultDtype .int64 st rfl]
        exact ⟨rfl, rfl, rfl⟩
  | false =>
      refine ⟨?_, ?_, ?_, ?_⟩
      · rw [randint_graph_eq low (some high) shape none .int64 st hshape rfl
          (by decide) (not_le.mpr hlh)]
        exact ⟨rfl, rfl, _, rfl⟩
      · simp only [randn, resolveDtype]
        rw [gaussian_random_graph_eq shape (.np "float32") 0 1 0 .float32
          st rfl]
        exact ⟨rfl, rfl, _, rfl⟩
      · simp only [rand, resolveDtype]
        rw [uniform_random_graph_eq shape (.np "float32") 0 1 0 .float32
          st rfl]
        exact ⟨rfl, rfl, _, rfl⟩
      · rw [randperm_graph_eq n randpermDefaultDtype .int64 st rfl
          (not_lt.mpr hn) (by decide)]
        exact ⟨rfl, rfl, _, rfl⟩

/-- Witness for claim C7, in graph mode with shape `[2]`, bounds `0 < 5`,
`n = 3`. -/
theorem four_functions_follow_four_steps_witness :
    fourStepResult (randint 0 (some 5) (.list [.lit 2]) none false ⟨[], 0⟩)
      false ⟨[], 0⟩ .int64 ∧
    fourStepResult (randn (.list [.lit 2]) none false ⟨[], 0⟩)
      false ⟨[], 0⟩ .float32 ∧
    fourStepResult (rand (.list [.lit 2]) none false ⟨[], 0⟩)
      false ⟨[], 0⟩ .float32 ∧
    fourStepResult (randperm 3 randpermDefaultDtype false ⟨[], 0⟩)
      false ⟨[], 0⟩ .int64 :=
  four_functions_follow_four_steps false ⟨[], 0⟩ 0 5 3 (.list [.lit 2]) [2]
    (by decide) rfl (by decide) (by decide)

/-- Claim C8: on a valid call with an all-literal list shape, every
operator invocation of `randint`, `randn` (via `gaussian_random`) and
`randperm` supplies exactly the fixed named-parameter set of the operator —
shape, bounds (`low`/`high`, `mean`/`std`) and data-type tag as applicable
— and the `seed` parameter is 0 in the immediate-execution call and in the
deferred graph-node attributes alike. -/
theorem operator_invocations_fixed_params_seed_zero (low high n : Int)
    (lits : List Int) (st : ProgState) (hlh : low < high) (hn : 1 ≤ n) :
    randint low (some high) (.list (lits.map .lit)) none true st =
      .ok (⟨.eager ⟨"randint",
        [("shape", .intList lits), ("low", .int low), ("high", .int high),
         ("seed", .int 0), ("dtype", .dtype .int64)]⟩, none⟩, st) ∧
    randint low (some high) (.list (lits.map .lit)) none false st =
      .ok (⟨.graphVar st.nextId .int64, none⟩,
        ⟨st.ops ++ [⟨"randint", [], [("Out", st.nextId)],
          [("low", .int low), ("high", .int high), ("seed", .int 0),
           ("dtype", .dtype .int64), ("shape", .intList lits)]⟩],
         st.nextId + 1⟩) ∧
    randn (.list (lits.map .lit)) none true st =
      .ok (⟨.eager ⟨"gaussian_random",
        [("shape", .intList lits), ("mean", .int 0), ("std", .int 1),
         ("seed", .int 0), ("dtype", .dtype .float32)]⟩, some true⟩, st) ∧
    randn (.list (lits.map .lit)) none false st =
      .ok (⟨.graphVar st.nextId .float32, some true⟩,
        ⟨st.ops ++ [⟨"gaussian_random", [], [("Out", st.nextId)],
          [("mean", .int 0), ("std", .int 1), ("seed", .int 0),
           ("dtype", .dtype .float32), ("shape", .intList lits)]⟩],
         st.nextId + 1⟩) ∧
    randperm n (.np "int64") true st =
      .ok (⟨.eager ⟨"randperm",
        [("n", .int n), ("seed", .int 0), ("dtype", .dtype .int64)]⟩,
        none⟩, st) ∧
    randperm n (.np "int64") false st =
      .ok (⟨.graphVar st.nextId .int64, some true⟩,
        ⟨st.ops ++ [⟨"randperm", [], [("Out", st.nextId)],
          [("n", .int n), ("dtype", .dtype .int64), ("seed", .int 0)]⟩],
         st.nextId + 1⟩) := by
  have hsh : convert_shape_to_list (.list (lits.map .lit)) = .ok lits := by
    simp [convert_shape_to_list, value_map_lit, value_comp_lit]
  have hshape : (ShapeArg.list (lits.map .lit)) ≠ .other :=
    fun hx => ShapeArg.noConfusion hx
  refine ⟨?_, ?_, ?_, ?_, ?_, ?_⟩
  · exact randint_dygraph_eq low (some high) _ none .int64 lits st rfl hsh
  · rw [randint_graph_eq low (some high) _ none .int64 st hshape rfl
      (by decide) (not_le.mpr hlh)]
    simp [get_shape_tensor_inputs, any_isVar_map_lit, value_map_lit,
      any_isVar_comp_lit, value_comp_lit, normBounds]
  · simp only [randn, resolveDtype]
    rw [gaussian_random_dygraph_eq _ (.np "float32") 0 1 0 .float32 lits st
      rfl hsh]
  · simp only [randn, resolveDtype]
    rw [gaussian_random_graph_eq _ (.np "float32") 0 1 0 .float32 st rfl]
    simp [get_shape_tensor_inputs, any_isVar_map_lit, value_map_lit,
      any_isVar_comp_lit, value_comp_lit, normBounds]
  · exact randperm_dygraph_eq n (.np "int64") .int64 st rfl
  · exact randperm_graph_eq n (.np "int64") .int64 st rfl (not_lt.mpr hn)
      (by decide)

/-- Witness for claim C8 with shape `[3]`, bounds `0 < 5`, `n = 2`. -/
theorem operator_invocations_fixed_params_seed_zero_witness :
    randint 0 (some 5) (.list [.lit 3]) none true ⟨[], 0⟩ =
      .ok (⟨.eager ⟨"randint",
        [("shape", .intList [3]), ("low", .int 0), ("high", .int 5),
         ("seed", .int 0), ("dtype", .dtype .int64)]⟩, none⟩, ⟨[], 0⟩) ∧
    randint 0 (some 5) (.list [.lit 3]) none false ⟨[], 0⟩ =
      .ok (⟨.graphVar 0 .int64, none⟩,
        ⟨[⟨"randint", [], [("Out", 0)],
          [("low", .int 0), ("high", .int 5), ("seed", .int 0),
           ("dtype", .dtype .int64), ("shape", .intList [3])]⟩], 1⟩) ∧
    randn (.list [.lit 3]) none true ⟨[], 0⟩ =
      .ok (⟨.eager ⟨"gaussian_random",
        [("shape", .intList [3]), ("mean", .int 0), ("std", .int 1),
         ("seed", .int 0), ("dtype", .dtype .float32)]⟩, some true⟩,
        ⟨[], 0⟩) ∧
    randn (.list [.lit 3]) none false ⟨[], 0⟩ =
      .ok (⟨.graphVar 0 .float32, some true⟩,
        ⟨[⟨"gaussian_random", [], [("Out", 0)],
          [("mean", .int 0), ("std", .int 1), ("seed", .int 0),
           ("dtype", .dtype .float32), ("shape", .intList [3])]⟩], 1⟩) ∧
    randperm 2 (.np "int64") true ⟨[], 0⟩ =
      .ok (⟨.eager ⟨"randperm",
        [("n", .int 2), ("seed", .int 0), ("dtype", .dtype .int64)]⟩,
        none⟩, ⟨[], 0⟩) ∧
    randperm 2 (.np "int64") false ⟨[], 0⟩ =
      .ok (⟨.graphVar 0 .int64, some true⟩,
        ⟨[⟨"randperm", [], [("Out", 0)],
          [("n", .int 2), ("dtype", .dtype .int64), ("seed", .int 0)]⟩],
         1⟩) :=
  operator_invocations_fixed_params_seed_zero 0 5 2 [3] ⟨[], 0⟩ (by decide)
    (by decide)

/-- Claim C9: `randint(low, high=None, ...)` behaves identically to
`randint(0, low, ...)` in every mode and state — the normalization
`high := low, low := 0` precedes any validation or dispatch — and in
particular `randint(0, high=None)` in graph mode raises the `ValueError`
because the normalized bounds are `low = 0 ≥ 0 = high`. -/
theorem randint_high_none_normalization (low : Int) (shape : ShapeArg)
    (dtype0 : Option DtypeArg) (mode : Bool) (st : ProgState) (t : VarType)
    (hshape : shape ≠ .other)
    (hdt : coerceDtype (resolveDtype dtype0 "int64") = .ok t)
    (hall : convert_dtype t ∈ ["int32", "int64"]) :
    randint low none shape dtype0 mode st =
      randint 0 (some low) shape dtype0 mode st ∧
    randint 0 none shape dtype0 false st =
      .error (.valueError (randint_bounds_msg 0 0)) := by
  constructor
  · rfl
  · exact randint_ge_graph_valueerror 0 none shape dtype0 t st hshape hdt
      hall (le_refl 0)

/-- Witness for claim C9 at `low = 4`, shape `[1]`, default dtype. -/
theorem randint_high_none_normalization_witness :
    (randint 4 none (.list [.lit 1]) none true ⟨[], 0⟩ =
      randint 0 (some 4) (.list [.lit 1]) none true ⟨[], 0⟩) ∧
    randint 0 none (.list [.lit 1]) none false ⟨[], 0⟩ =
      .error (.valueError (randint_bounds_msg 0 0)) :=
  randint_high_none_normalization 4 (.list [.lit 1]) none true ⟨[], 0⟩
    .int64 (by decide) rfl (by decide)

/-- Claim C10 counterexample: in dynamic-graph mode `randperm` returns the
result handle of the operator without `stop_gradient` being set on it (the flag
keeps its runtime creation value), contradicting the claim that `rand`,
`randn` and `randperm` all set `stop_gradient = True` on the handle they
return. -/
theorem randperm_dygraph_stop_gradient_unset :
    resultStopGradient (randperm 5 (.np "int64") true ⟨[], 0⟩) = some none :=
  rfl

/-- Claim C10 (amended): `rand` and `randn` set `stop_gradient = True` on
the handle they return in both modes; `randperm` sets it only in graph
mode and in dynamic-graph mode returns the operator handle untouched;
`randint` never sets it; and in every case the caller-visible state is
unchanged in dynamic-graph mode and changed only by registering the one
operator node (with its fresh output variable) in graph mode. -/
theorem stop_gradient_and_frame_behavior (shape : ShapeArg)
    (d1 d2 : Option DtypeArg) (n low : Int) (high : Option Int)
    (dp : DtypeArg) (d4 : Option DtypeArg) (mode : Bool)
    (st1 st2 st3 st4 : ProgState) (h1 h2 h3 h4 : Handle)
    (st1' st2' st3' st4' : ProgState)
    (hr1 : rand shape d1 mode st1 = .ok (h1, st1'))
    (hr2 : randn shape d2 mode st2 = .ok (h2, st2'))
    (hr3 : randperm n dp mode st3 = .ok (h3, st3'))
    (hr4 : randint low high shape d4 mode st4 = .ok (h4, st4')) :
    h1.stopGradient = some true ∧ frameOK st1 st1' mode ∧
    h2.stopGradient = some true ∧ frameOK st2 st2' mode ∧
    (mode = false → h3.stopGradient = some true) ∧
    (mode = true → h3.stopGradient = none) ∧ frameOK st3 st3' mode ∧
    h4.stopGradient = none ∧ frameOK st4 st4' mode := by
  obtain ⟨ha1, hb1, -⟩ := rand_ok_inv shape d1 mode st1 h1 st1' hr1
  obtain ⟨ha2, hb2, -⟩ := randn_ok_inv shape d2 mode st2 h2 st2' hr2
  obtain ⟨hb3, ht3, hf3⟩ := randperm_ok_inv n dp mode st3 h3 st3' hr3
  obtain ⟨hb4, ha4⟩ := randint_ok_inv low high shape d4 mode st4 h4 st4' hr4
  exact ⟨ha1, hb1, ha2, hb2, hf3, ht3, hb3, ha4, hb4⟩

/-- Witness for claim C10, in graph mode with shape `[2]`, `n = 5`,
bounds `0 < 5`. -/
theorem stop_gradient_and_frame_behavior_witness :
    Handle.stopGradient ⟨.graphVar 0 .float32, some true⟩ = some true ∧
    frameOK ⟨[], 0⟩
      ⟨[⟨"uniform_random", [], [("Out", 0)],
        [("min", .int 0), ("max", .int 1), ("seed", .int 0),
         ("dtype", .dtype .float32), ("shape", .intList [2])]⟩], 1⟩
      false ∧
    Handle.stopGradient ⟨.graphVar 0 .float32, some true⟩ = some true ∧
    frameOK ⟨[], 0⟩
      ⟨[⟨"gaussian_random", [], [("Out", 0)],
        [("mean", .int 0), ("std", .int 1), ("seed", .int 0),
         ("dtype", .dtype .float32), ("shape", .intList [2])]⟩], 1⟩
      false ∧
    (false = false →
      Handle.stopGradient ⟨.graphVar 0 .int64, some true⟩ = some true) ∧
    (false = true →
      Handle.stopGradient ⟨.graphVar 0 .int64, some true⟩ = none) ∧
    frameOK ⟨[], 0⟩
      ⟨[⟨"randperm", [], [("Out", 0)],
        [("n", .int 5), ("dtype", .dtype .int64), ("seed", .int 0)]⟩], 1⟩
      false ∧
    Handle.stopGradient ⟨.graphVar 0 .int64, none⟩ = none ∧
    frameOK ⟨[], 0⟩
      ⟨[⟨"randint", [], [("Out", 0)],
        [("low", .int 0), ("high", .int 5), ("seed", .int 0),
         ("dtype", .dtype .int64), ("shape", .intList [2])]⟩], 1⟩
      false :=
  stop_gradient_and_frame_behavior (.list [.lit 2]) none none 5 0 (some 5)
    (.np "int64") none false ⟨[], 0⟩ ⟨[], 0⟩ ⟨[], 0⟩ ⟨[], 0⟩
    ⟨.graphVar 0 .float32, some true⟩ ⟨.graphVar 0 .float32, some true⟩
    ⟨.graphVar 0 .int64, some true⟩ ⟨.graphVar 0 .int64, none⟩
    ⟨[⟨"uniform_random", [], [("Out", 0)],
      [("min", .int 0), ("max", .int 1), ("seed", .int 0),
       ("dtype", .dtype .float32), ("shape", .intList [2])]⟩], 1⟩
    ⟨[⟨"gaussian_random", [], [("Out", 0)],
      [("mean", .int 0), ("std", .int 1), ("seed", .int 0),
       ("dtype", .dtype .float32), ("shape", .intList [2])]⟩], 1⟩
    ⟨[⟨"randperm", [], [("Out", 0)],
      [("n", .int 5), ("dtype", .dtype .int64), ("seed", .int 0)]⟩], 1⟩
    ⟨[⟨"randint", [], [("Out", 0)],
      [("low", .int 0), ("high", .int 5), ("seed", .int 0),
       ("dtype", .dtype .int64), ("shape", .intList [2])]⟩], 1⟩
    rfl rfl rfl rfl

end Paddle
